import Mathlib

/-!
Shallow embedding of `src/pychicken/pychicken.py` (class `pyChicken`), the
event-coordination core of the py-chicken repository, together with theorems
settling the frozen claims about it.

Conventions of the embedding:
* wall-clock instants (`datetime.now()`) are passed in explicitly as `Int`
  seconds; `time_since_tweet.total_seconds()` becomes integer subtraction;
* external collaborators (Twitter API, PiCamera, `requests`/`yaml`,
  `subprocess.Popen`) are modelled by explicit success/failure parameters,
  and the calls the code makes on them are recorded in traces;
* a Python `raise` propagating out of a method is `Except.error`.
-/

namespace PyChicken

/-- One entry of the facts collection, as consumed by `_get_tweet_fact`
(a mapping with keys `type`, `content`, `source`). -/
structure Fact where
  type : String
  content : String
  source : String
deriving DecidableEq

/-- The mutable attributes of the `pyChicken` object that the embedded
methods read or write: `self.timestamp` (last recorded publish time),
`self.tweet_interval`, `self.running_livestream`, `self.youtube_feed_url`,
`self.facts` and `self.facts_count`. -/
structure ChickenState where
  timestamp : Int
  tweet_interval : Int
  running_livestream : Bool
  youtube_feed_url : String
  facts : List Fact
  facts_count : Nat
deriving DecidableEq

/-- Embeds `_set_timestamp`: it returns `datetime.now()`, i.e. the current
instant, which the embedding passes in explicitly. -/
def set_timestamp (now : Int) : Int :=
  now

/-- Embeds `_check_timestamp`: computes `secs_since_tweet = now - self.timestamp`;
if `secs_since_tweet > self.tweet_interval` it stores a fresh timestamp
(`self.timestamp = self._set_timestamp()`) and returns `True`, else returns
`False` without touching any attribute. -/
def check_timestamp (now : Int) (s : ChickenState) : Bool × ChickenState :=
  let secs_since_tweet := now - s.timestamp
  if secs_since_tweet > s.tweet_interval then
    (true, { s with timestamp := set_timestamp now })
  else
    (false, s)

/-- A sample object state shared by concrete evaluations below: last publish
recorded at time 0, minimum interval 60 seconds, no livestream running, one
loaded fact. -/
def base_state : ChickenState :=
  { timestamp := 0
    tweet_interval := 60
    running_livestream := false
    youtube_feed_url := "example.com/live"
    facts := [{ type := "fact", content := "Chickens dream", source := "farm" }]
    facts_count := 1 }

/-- C2, counterexample: with `lastPublishTime = 0` and
`minimumIntervalSeconds = 60`, an admission attempt at `now = 60` satisfies
`now - lastPublishTime >= minimumIntervalSeconds`, yet `_check_timestamp`
returns `False` and leaves the state unchanged: the code admits on the strict
comparison `>`, not on `>=` as the claim states. -/
theorem C2_boundary_attempt_denied :
    (60 : Int) - base_state.timestamp ≥ base_state.tweet_interval ∧
      check_timestamp 60 base_state = (false, base_state) := by
  constructor
  · decide
  · decide

/-- C2, amended: `_check_timestamp` at time `now` returns `True` and records
`now` as the new `timestamp` exactly when `now - timestamp` is STRICTLY
greater than `tweet_interval`; otherwise it returns `False` and the whole
state is unchanged. -/
theorem C2_check_timestamp_strict (now : Int) (s : ChickenState) :
    ((check_timestamp now s).1 = true ↔ s.tweet_interval < now - s.timestamp) ∧
      (s.tweet_interval < now - s.timestamp →
        (check_timestamp now s).2 = { s with timestamp := now }) ∧
      (¬ s.tweet_interval < now - s.timestamp → (check_timestamp now s).2 = s) := by
  unfold check_timestamp set_timestamp
  by_cases h : now - s.timestamp > s.tweet_interval
  · simp [h]
  · simp [h]

/-- Witness for C2: at `now = 61` the strict condition holds and the timestamp
is recorded; at `now = 30` it fails and the state is untouched. -/
theorem C2_check_timestamp_strict_witness :
    (check_timestamp 61 base_state).2 = { base_state with timestamp := 61 } ∧
      (check_timestamp 30 base_state).2 = base_state :=
  ⟨(C2_check_timestamp_strict 61 base_state).2.1 (by decide),
   (C2_check_timestamp_strict 30 base_state).2.2 (by decide)⟩

/-- The sequence of granted admission times obtained by running
`_check_timestamp` once per attempt time, in order, threading the object
state exactly as the Python object attributes are threaded: an attempt time
is kept exactly when the call returned `True`. -/
def admissions (times : List Int) (s : ChickenState) : List Int :=
  match times with
  | [] => []
  | t :: ts =>
    match check_timestamp t s with
    | (true, s2) => t :: admissions ts s2
    | (false, s2) => admissions ts s2

/-- Helper for reasoning about `admissions`: the same recursion with the
unchanging `tweet_interval` and the threaded `timestamp` made explicit. -/
def admissionsAux (iv : Int) (last : Int) : List Int → List Int
  | [] => []
  | t :: ts =>
    if iv < t - last then t :: admissionsAux iv t ts else admissionsAux iv last ts

lemma admissions_eq_aux (times : List Int) (s : ChickenState) :
    admissions times s = admissionsAux s.tweet_interval s.timestamp times := by
  induction times generalizing s with
  | nil => rfl
  | cons t ts ih =>
    by_cases h : s.tweet_interval < t - s.timestamp
    · simp [admissions, admissionsAux, check_timestamp, set_timestamp, h, ih]
    · simp [admissions, admissionsAux, check_timestamp, h, ih]

lemma admissionsAux_subset (iv : Int) : ∀ (ts : List Int) (last : Int),
    ∀ x ∈ admissionsAux iv last ts, x ∈ ts := by
  intro ts
  induction ts with
  | nil =>
    intro last x hx
    simp [admissionsAux] at hx
  | cons t ts ih =>
    intro last x hx
    by_cases h : iv < t - last
    · simp only [admissionsAux, if_pos h, List.mem_cons] at hx
      rcases hx with rfl | hx
      · exact List.mem_cons_self _ _
      · exact List.mem_cons_of_mem _ (ih t x hx)
    · simp only [admissionsAux, if_neg h] at hx
      exact List.mem_cons_of_mem _ (ih last x hx)

lemma admissionsAux_head (iv : Int) : ∀ (ts : List Int) (last h : Int) (rest : List Int),
    admissionsAux iv last ts = h :: rest → iv < h - last := by
  intro ts
  induction ts with
  | nil =>
    intro last h rest heq
    simp [admissionsAux] at heq
  | cons t ts ih =>
    intro last h rest heq
    by_cases hc : iv < t - last
    · simp only [admissionsAux, if_pos hc] at heq
      cases heq
      exact hc
    · simp only [admissionsAux, if_neg hc] at heq
      exact ih last h rest heq

lemma admissionsAux_chain (iv : Int) : ∀ (ts : List Int) (last : Int),
    List.Chain' (fun a b : Int => a < b) ts →
    List.Chain' (fun a b : Int => a < b ∧ iv < b - a) (admissionsAux iv last ts) := by
  intro ts
  induction ts with
  | nil =>
    intro last _
    simp [admissionsAux]
  | cons t ts ih =>
    intro last hch
    have hch2 : List.Chain' (fun a b : Int => a < b) ts := hch.tail
    by_cases hc : iv < t - last
    · simp only [admissionsAux, if_pos hc]
      cases hl : admissionsAux iv t ts with
      | nil => simp
      | cons b rest =>
        rw [List.chain'_cons]
        constructor
        · refine ⟨?_, admissionsAux_head iv ts t b rest hl⟩
          have hbts : b ∈ ts :=
            admissionsAux_subset iv ts t b (hl ▸ List.mem_cons_self b rest)
          have hpw : List.Pairwise (fun a b : Int => a < b) (t :: ts) :=
            List.chain'_iff_pairwise.mp hch
          exact (List.pairwise_cons.mp hpw).1 b hbts
        · have hrec := ih t hch2
          rw [hl] at hrec
          exact hrec
    · simp only [admissionsAux, if_neg hc]
      exact ih last hch2

lemma admissionsAux_pairwise (iv : Int) (ts : List Int) (last : Int)
    (hch : List.Chain' (fun a b : Int => a < b) ts) :
    List.Pairwise (fun a b : Int => iv ≤ b - a) (admissionsAux iv last ts) := by
  haveI : IsTrans Int (fun a b : Int => a < b ∧ iv < b - a) :=
    ⟨fun a b c hab hbc => ⟨lt_trans hab.1 hbc.1, by omega⟩⟩
  have h1 := admissionsAux_chain iv ts last hch
  have h2 := List.chain'_iff_pairwise.mp h1
  exact h2.imp (fun hab => le_of_lt hab.2)

/-- C3: starting from any object state, running `_check_timestamp` over any
strictly increasing sequence of attempt times grants a subsequence of
admissions in which any two granted times are at least `tweet_interval`
seconds apart (the code in fact spaces them strictly more than
`tweet_interval` apart). -/
theorem C3_granted_admissions_spaced (s : ChickenState) (times : List Int)
    (h : List.Chain' (fun a b : Int => a < b) times) :
    List.Pairwise (fun a b : Int => s.tweet_interval ≤ b - a) (admissions times s) := by
  rw [admissions_eq_aux]
  exact admissionsAux_pairwise s.tweet_interval times s.timestamp h

/-- Witness for C3 at the spec scenario times 0, 30, 61 with interval 60. -/
theorem C3_granted_admissions_spaced_witness :
    List.Chain' (fun a b : Int => a < b) [0, 30, 61] ∧
      List.Pairwise (fun a b : Int => base_state.tweet_interval ≤ b - a)
        (admissions [0, 30, 61] base_state) :=
  ⟨by norm_num [List.chain'_cons, List.chain'_singleton],
   C3_granted_admissions_spaced base_state [0, 30, 61]
     (by norm_num [List.chain'_cons, List.chain'_singleton])⟩

/-- Failure modes of the facts refresh: `requests.get` failing (fetch) or
`yaml.load` failing (parse), the two collaborator calls in `_load_facts_file`. -/
inductive RefreshError where
  | fetchError
  | parseError
deriving DecidableEq

/-- Embeds `_load_facts_file`: the fetch-and-parse collaborator outcome `r`
is passed in; on success the method returns the pair
`(facts, facts_count = len(facts))`, and on failure the exception propagates
(there is no try/except in the method). -/
def load_facts_file (r : Except RefreshError (List Fact)) :
    Except RefreshError (List Fact × Nat) :=
  match r with
  | Except.error e => Except.error e
  | Except.ok facts => Except.ok (facts, facts.length)

/-- Embeds the body of `_run_retrieve_facts` after its `sleep(3600)`: the
statement `self.facts, self.facts_count = self._load_facts_file()`.
Python evaluates the right-hand side completely before assigning either
target, so a raise from `_load_facts_file` skips the whole assignment and
propagates out of the thread; on success both attributes are replaced
together. -/
def run_retrieve_facts (r : Except RefreshError (List Fact)) (s : ChickenState) :
    Except RefreshError Unit × ChickenState :=
  match load_facts_file r with
  | Except.error e => (Except.error e, s)
  | Except.ok (facts, count) =>
      (Except.ok (), { s with facts := facts, facts_count := count })

/-- C7: when the fetch or parse step of a refresh fails, the raised error
propagates and the object state — in particular `self.facts` and
`self.facts_count` — is exactly what it was before the attempt. -/
theorem C7_refresh_failure_preserves_facts (e : RefreshError) (s : ChickenState) :
    (run_retrieve_facts (Except.error e) s).2 = s ∧
      (run_retrieve_facts (Except.error e) s).1 = Except.error e := by
  constructor
  · rfl
  · rfl

/-- The observable actions of a facts-thread body. -/
inductive ThreadAction where
  | sleepFor (secs : Nat)
  | refreshAttempt
deriving DecidableEq

/-- Embeds the complete control flow of `_run_retrieve_facts` as the ordered
list of actions the function performs before returning: it sleeps 3600
seconds once, performs one `_load_facts_file` refresh, and then the function
(and with it the `facts` thread started by `run`) ends — there is no loop. -/
def run_retrieve_facts_actions : List ThreadAction :=
  [ThreadAction.sleepFor 3600, ThreadAction.refreshAttempt]

/-- C8, evaluated on the code: the facts thread body performs exactly one
refresh attempt in its whole lifetime; contrary to the claim, no further
attempt follows at the next period, because `_run_retrieve_facts` contains
no loop and the thread terminates after the single refresh. -/
theorem C8_refresh_runs_exactly_once :
    run_retrieve_facts_actions.count ThreadAction.refreshAttempt = 1 ∧
      run_retrieve_facts_actions =
        [ThreadAction.sleepFor 3600, ThreadAction.refreshAttempt] := by
  constructor
  · decide
  · rfl

/-- The object state after the initial load in `__init__`
(`self.facts, self.facts_count = self._load_facts_file()`, success case —
on failure the constructor raises and no object exists). -/
def initial_facts_state (f0 : List Fact) (base : ChickenState) : ChickenState :=
  { base with facts := f0, facts_count := f0.length }

/-- The object state after a sequence of refresh attempts with the given
collaborator outcomes, each applied by `_run_retrieve_facts`. -/
def facts_state_from (s : ChickenState) (rs : List (Except RefreshError (List Fact))) :
    ChickenState :=
  rs.foldl (fun st r => (run_retrieve_facts r st).2) s

/-- Embeds the lookup `fact = self.facts[fact_number]` in `_get_tweet_fact`;
`none` is Python raising `IndexError`. -/
def get_tweet_fact_lookup (i : Nat) (s : ChickenState) : Option Fact :=
  s.facts[i]?

/-- The invariant relating the two attributes set together from
`_load_facts_file`. -/
def facts_invariant (s : ChickenState) : Prop :=
  s.facts_count = s.facts.length

lemma run_retrieve_facts_preserves_invariant (r : Except RefreshError (List Fact))
    (s : ChickenState) (h : facts_invariant s) :
    facts_invariant (run_retrieve_facts r s).2 := by
  cases r with
  | error e => exact h
  | ok facts => simp [run_retrieve_facts, load_facts_file, facts_invariant]

lemma facts_state_from_invariant (rs : List (Except RefreshError (List Fact)))
    (s : ChickenState) (h : facts_invariant s) :
    facts_invariant (facts_state_from s rs) := by
  induction rs generalizing s with
  | nil => exact h
  | cons r rs ih => exact ih _ (run_retrieve_facts_preserves_invariant r s h)

/-- C9: after the initial load and any sequence of refresh outcomes,
`facts_count` equals the length of `facts`; hence any index `i` drawn by
`randrange(self.facts_count)` (so `i < facts_count`) makes the lookup
`self.facts[fact_number]` in `_get_tweet_fact` succeed. -/
theorem C9_facts_count_matches_collection (f0 : List Fact) (base : ChickenState)
    (rs : List (Except RefreshError (List Fact))) (i : Nat)
    (hi : i < (facts_state_from (initial_facts_state f0 base) rs).facts_count) :
    (facts_state_from (initial_facts_state f0 base) rs).facts_count =
        (facts_state_from (initial_facts_state f0 base) rs).facts.length ∧
      (get_tweet_fact_lookup i (facts_state_from (initial_facts_state f0 base) rs)).isSome
        = true := by
  have hinv : facts_invariant (facts_state_from (initial_facts_state f0 base) rs) :=
    facts_state_from_invariant rs (initial_facts_state f0 base) rfl
  refine ⟨hinv, ?_⟩
  rw [hinv] at hi
  unfold get_tweet_fact_lookup
  rw [List.getElem?_eq_getElem hi]
  rfl

/-- Witness for C9: one initial fact, then a successful refresh to a
two-element collection, then a failed refresh; index 1 is drawn. -/
theorem C9_facts_count_matches_collection_witness :
    1 < (facts_state_from (initial_facts_state base_state.facts base_state)
          [Except.ok (base_state.facts ++ base_state.facts),
           Except.error RefreshError.fetchError]).facts_count ∧
      (get_tweet_fact_lookup 1
          (facts_state_from (initial_facts_state base_state.facts base_state)
            [Except.ok (base_state.facts ++ base_state.facts),
             Except.error RefreshError.fetchError])).isSome = true :=
  ⟨by decide,
   (C9_facts_count_matches_collection base_state.facts base_state
      [Except.ok (base_state.facts ++ base_state.facts),
       Except.error RefreshError.fetchError] 1 (by decide)).2⟩

/-- The collaborator calls the tweet/capture path can make, recorded in
order: `checkTimestamp` would be a call to the rate limiter
`_check_timestamp`; `initCamera`, `captureStill` and `closeCamera` are the
camera operations of `_initialize_camera`, `camera.capture` and
`_close_camera`; `mediaUpload`, `publishText` and `publishTextWithMedia` are
the Twitter sink operations (`media_upload`, `update_status` without and
with `media_ids`). -/
inductive Call where
  | checkTimestamp
  | initCamera
  | captureStill
  | closeCamera
  | mediaUpload
  | publishText (message : String)
  | publishTextWithMedia (message : String)
deriving DecidableEq

/-- Success/failure of each fallible collaborator operation in one run. -/
structure Faults where
  initCameraOk : Bool
  captureOk : Bool
  closeCameraOk : Bool
  mediaUploadOk : Bool
  updateStatusOk : Bool
deriving DecidableEq

/-- A run in which every collaborator operation succeeds. -/
def Faults.allOk : Faults :=
  { initCameraOk := true
    captureOk := true
    closeCameraOk := true
    mediaUploadOk := true
    updateStatusOk := true }

/-- Embeds `_image_capture`: `self._initialize_camera()`, then
`self.camera.capture(...)`, then `self._close_camera()`, then `return True`;
the surrounding try/except only logs and re-raises, so the first failing
call aborts the sequence and the exception propagates. The result pairs the
Python outcome with the trace of camera calls actually made. -/
def image_capture (f : Faults) : Except Unit Bool × List Call :=
  if !f.initCameraOk then
    (Except.error (), [Call.initCamera])
  else if !f.captureOk then
    (Except.error (), [Call.initCamera, Call.captureStill])
  else if !f.closeCameraOk then
    (Except.error (), [Call.initCamera, Call.captureStill, Call.closeCamera])
  else
    (Except.ok true, [Call.initCamera, Call.captureStill, Call.closeCamera])

/-- Embeds the message formatting of `_get_tweet_fact`: the two `if`
branches on `fact['type']`; when the type is neither `"fact"` nor
`"quote"`, the local `message` is never assigned and the `return message`
raises (`none`). -/
def fact_message (n : Nat) (f : Fact) : Option String :=
  if f.type = "fact" then
    some ("Chicken fact " ++ toString n ++ ": " ++ f.content ++ " source: " ++ f.source)
  else if f.type = "quote" then
    some ("Chicken Quote " ++ toString n ++ ": " ++ f.content ++ " --" ++ f.source)
  else
    none

/-- Embeds `_get_tweet_fact` with the `randrange(self.facts_count)` draw `i`
passed in: looks up `self.facts[i]` and formats the message; `none` is a
raise (index error or unassigned `message`). -/
def get_tweet_fact (i : Nat) (s : ChickenState) : Option String :=
  match get_tweet_fact_lookup i s with
  | none => none
  | some f => fact_message i f

/-- The exact announcement string `_send_tweet` builds while
`self.running_livestream` is true. -/
def livestream_announcement (feed_url : String) : String :=
  "Hey! We\x27re running a livestream right now! Come check us out at " ++ feed_url

/-- Embeds `_send_tweet`: while a livestream runs it publishes the
announcement text with no media; otherwise it formats a fact message,
captures an image, uploads the media and publishes text-with-media. A raise
from any step aborts the rest (the except clause only logs and re-raises).
The trace records every collaborator call made, in order. Note that the
`else` branch on `_image_capture` returning `False` is in the source but
unreachable (the method returns `True` or raises). -/
def send_tweet (f : Faults) (rand : Nat) (s : ChickenState) :
    Except Unit Unit × List Call :=
  if s.running_livestream then
    let message := livestream_announcement s.youtube_feed_url
    ((if f.updateStatusOk then Except.ok () else Except.error ()),
      [Call.publishText message])
  else
    match get_tweet_fact rand s with
    | none => (Except.error (), [])
    | some message =>
      match image_capture f with
      | (Except.error _, tr) => (Except.error (), tr)
      | (Except.ok true, tr) =>
          if f.mediaUploadOk then
            ((if f.updateStatusOk then Except.ok () else Except.error ()),
              tr ++ [Call.mediaUpload, Call.publishTextWithMedia message])
          else
            (Except.error (), tr ++ [Call.mediaUpload])
      | (Except.ok false, tr) =>
          ((if f.updateStatusOk then Except.ok () else Except.error ()),
            tr ++ [Call.publishText message])

/-- Embeds `_motion_sensor`, the handler run on every motion event: it only
logs and calls `self._send_tweet()`. -/
def motion_sensor (f : Faults) (rand : Nat) (s : ChickenState) :
    Except Unit Unit × List Call :=
  send_tweet f rand s

/-- C1, evaluated on the code: a motion event at `now = 30` with no
livestream active, last publish recorded at time 0 and a 60-second minimum
interval — a moment at which `_check_timestamp` would deny admission — still
publishes: the motion path never consults the rate limiter (no
`checkTimestamp` call appears in the trace; indeed `_check_timestamp` has no
caller anywhere in the class) and the publish-with-media call reaches the
sink. -/
theorem C1_motion_publish_skips_rate_limiter :
    (check_timestamp 30 base_state).1 = false ∧
      Call.checkTimestamp ∉ (motion_sensor Faults.allOk 0 base_state).2 ∧
      Call.publishTextWithMedia "Chicken fact 0: Chickens dream source: farm"
        ∈ (motion_sensor Faults.allOk 0 base_state).2 := by
  refine ⟨by decide, by decide, by decide⟩

/-- C4, evaluated on the code: in `_image_capture`, when
`self.camera.capture` raises a hardware error, the method propagates the
error without ever calling `_close_camera` — there is no finally block, so
the camera resource is not released on this exit path. -/
theorem C4_capture_failure_skips_close :
    (image_capture { Faults.allOk with captureOk := false }).1 = Except.error () ∧
      Call.initCamera ∈ (image_capture { Faults.allOk with captureOk := false }).2 ∧
      Call.closeCamera ∉ (image_capture { Faults.allOk with captureOk := false }).2 := by
  refine ⟨rfl, by decide, by decide⟩

/-- C6: for every motion event handled while `running_livestream` is true,
regardless of collaborator faults and of the random draw, the handler makes
exactly one sink call — `update_status` with the livestream announcement
text and no media — and makes no camera call, no media upload, and no rate
limiter check. -/
theorem C6_active_livestream_redirects_motion (f : Faults) (rand : Nat)
    (s : ChickenState) (h : s.running_livestream = true) :
    (motion_sensor f rand s).2 =
        [Call.publishText (livestream_announcement s.youtube_feed_url)] ∧
      Call.checkTimestamp ∉ (motion_sensor f rand s).2 ∧
      Call.initCamera ∉ (motion_sensor f rand s).2 ∧
      Call.captureStill ∉ (motion_sensor f rand s).2 ∧
      Call.mediaUpload ∉ (motion_sensor f rand s).2 ∧
      ∀ m, Call.publishTextWithMedia m ∉ (motion_sensor f rand s).2 := by
  simp [motion_sensor, send_tweet, h]

/-- Witness for C6: concrete state with the livestream flag set. -/
theorem C6_active_livestream_redirects_motion_witness :
    ({ base_state with running_livestream := true } : ChickenState).running_livestream
        = true ∧
      (motion_sensor Faults.allOk 0 { base_state with running_livestream := true }).2 =
        [Call.publishText
          (livestream_announcement
            ({ base_state with running_livestream := true } : ChickenState).youtube_feed_url)] :=
  ⟨rfl,
   (C6_active_livestream_redirects_motion Faults.allOk 0
      { base_state with running_livestream := true } rfl).1⟩

/-- State of the streaming loop of `_send_livestream`, tracking the seconds
elapsed since `start_recording`: `looping` is control inside
`while True: self.camera.wait_recording(self.livestream_duration)`, and
`stopped` is control past the loop (only reachable through an interrupt or a
collaborator error, never by the loop itself). -/
inductive LSState where
  | looping (elapsed : Nat)
  | stopped (elapsed : Nat)
deriving DecidableEq

/-- One fault-free, uninterrupted iteration of the `while True` loop in
`_send_livestream`: `wait_recording(duration)` returns after `duration`
seconds and the unconditional loop repeats; the body contains no break,
return or stop call, so control never leaves `looping`. -/
def livestream_step (duration : Nat) : LSState → LSState
  | LSState.looping elapsed => LSState.looping (elapsed + duration)
  | LSState.stopped elapsed => LSState.stopped elapsed

/-- C5, evaluated on the code: however many full wait periods elapse in a
fault-free, uninterrupted run, the streaming loop of `_send_livestream` is
still in `looping` — in particular after the configured duration has long
elapsed the session has not been stopped, because the `while True` loop has
no exit and no internal timer ends it. -/
theorem C5_livestream_never_auto_stops (duration elapsed n : Nat) :
    (livestream_step duration)^[n] (LSState.looping elapsed) =
      LSState.looping (elapsed + n * duration) := by
  induction n generalizing elapsed with
  | zero => simp
  | succ k ih =>
    rw [Function.iterate_succ_apply]
    rw [livestream_step]
    rw [ih]
    ring_nf

/-- How one run of `_send_livestream` leaves the streaming loop: a
`KeyboardInterrupt` during `wait_recording`, a hardware error raised by
`wait_recording` mid-stream, a failure of `start_recording`, or a failure of
`subprocess.Popen` itself (in which case the local `stream_pipe` was never
bound). These are the only exits — the loop has no normal termination. -/
inductive LSExit where
  | keyboardInterrupt
  | waitError
  | startError
  | popenError
deriving DecidableEq

/-- Success/failure of the operations run while leaving `_send_livestream`:
`camera.stop_recording()` in the except clause, `_close_camera()` and
`stream_pipe.stdin.close()` in the finally block. -/
structure LSFaults where
  stopRecordingOk : Bool
  closeCameraOk : Bool
  stdinCloseOk : Bool
deriving DecidableEq

/-- The observable outcome of one run of `_send_livestream`. -/
structure LSOutcome where
  running_livestream : Bool
  close_camera_called : Bool
  camera_closed : Bool
  stdin_closed : Bool
  stop_recording_called : Bool
  raised : Bool
deriving DecidableEq

/-- Embeds the exit protocol of `_send_livestream`. The method sets
`self.running_livestream = True` on entry. On a `KeyboardInterrupt` the
except clause calls `camera.stop_recording()` (whose own failure becomes the
pending exception); every other listed exit reaches the finally block with
its exception pending. The finally block then runs in order:
`self._close_camera()` — if it raises, the rest of the block is skipped;
`stream_pipe.stdin.close()` — an `UnboundLocalError` if `Popen` failed
before binding `stream_pipe`, or the close itself may fail, either way
skipping the rest; and only then `self.running_livestream = False`. -/
def send_livestream (ex : LSExit) (f : LSFaults) : LSOutcome :=
  let stop_called := ex = LSExit.keyboardInterrupt
  let pending :=
    match ex with
    | LSExit.keyboardInterrupt => !f.stopRecordingOk
    | _ => true
  let pipe_bound := ex ≠ LSExit.popenError
  if !f.closeCameraOk then
    { running_livestream := true
      close_camera_called := true
      camera_closed := false
      stdin_closed := false
      stop_recording_called := stop_called
      raised := true }
  else if !pipe_bound then
    { running_livestream := true
      close_camera_called := true
      camera_closed := true
      stdin_closed := false
      stop_recording_called := stop_called
      raised := true }
  else if !f.stdinCloseOk then
    { running_livestream := true
      close_camera_called := true
      camera_closed := true
      stdin_closed := false
      stop_recording_called := stop_called
      raised := true }
  else
    { running_livestream := false
      close_camera_called := true
      camera_closed := true
      stdin_closed := true
      stop_recording_called := stop_called
      raised := pending }

/-- All exit-protocol collaborator operations succeed. -/
def LSFaults.allOk : LSFaults :=
  { stopRecordingOk := true, closeCameraOk := true, stdinCloseOk := true }

/-- C10, counterexample: when `subprocess.Popen` raises (a collaborator
error inside the try block) and every cleanup operation that does run
succeeds, the finally block still aborts at `stream_pipe.stdin.close()`
(the local is unbound), so the pipe input is never closed and
`self.running_livestream` is left stuck at `True`. -/
theorem C10_popen_failure_leaves_flag_set :
    (send_livestream LSExit.popenError LSFaults.allOk).running_livestream = true ∧
      (send_livestream LSExit.popenError LSFaults.allOk).stdin_closed = false ∧
      (send_livestream LSExit.popenError LSFaults.allOk).close_camera_called = true := by
  refine ⟨rfl, rfl, rfl⟩

/-- C10, amended: on every exit of `_send_livestream` the finally block
starts and `_close_camera` is invoked; and provided the stream pipe was
actually created (`Popen` did not fail) and the cleanup steps themselves do
not raise, the camera is closed, the pipe input is closed, and the
livestream flag is reset to false. -/
theorem C10_cleanup_when_unfaulted (ex : LSExit) (f : LSFaults)
    (h1 : f.closeCameraOk = true) (h2 : f.stdinCloseOk = true)
    (h3 : ex ≠ LSExit.popenError) :
    (send_livestream ex f).close_camera_called = true ∧
      (send_livestream ex f).camera_closed = true ∧
      (send_livestream ex f).stdin_closed = true ∧
      (send_livestream ex f).running_livestream = false := by
  obtain ⟨a, b, c⟩ := f
  cases b with
  | false => cases h1
  | true =>
    cases c with
    | false => cases h2
    | true => cases ex <;> simp_all [send_livestream]

/-- Witness for C10's amended theorem: a hardware error from
`wait_recording` mid-stream, with all cleanup operations succeeding. -/
theorem C10_cleanup_when_unfaulted_witness :
    LSFaults.allOk.closeCameraOk = true ∧ LSFaults.allOk.stdinCloseOk = true ∧
      LSExit.waitError ≠ LSExit.popenError ∧
      (send_livestream LSExit.waitError LSFaults.allOk).running_livestream = false :=
  ⟨rfl, rfl, by decide,
   (C10_cleanup_when_unfaulted LSExit.waitError LSFaults.allOk rfl rfl (by decide)).2.2.2⟩

end PyChicken
